import Mathlib

/-!
Shallow embedding of the podman Terraform provider's secret resource
reconciler (internal/provider/secret_resource.go) and of the provider
configuration step (provider.go).

Conventions of the embedding:
* Terraform framework `types.String` is `Option String` (`none` = null);
  `types.Map` of strings is `Option (List (String × String))`.
* The remote podman bindings (`secrets.Create`, `secrets.List`,
  `secrets.Remove`, `bindings.NewConnection`) are external collaborators;
  their behaviour for one reconciliation step is supplied as an oracle
  (`RemoteClient`, or a function argument for `NewConnection`), with Go
  errors carried as their message strings.
* Every operation additionally returns the trace of remote calls it
  issued and (for Read) the log lines it emitted, so that frame and
  information-flow properties are statable.
-/

set_option autoImplicit false
set_option linter.unusedVariables false

namespace Podman

/-- Embeds the Go struct `SecretResourceModel` of secret_resource.go:
the typed Terraform state/plan model of a `podman_secret` resource.
`none` models a Terraform null value. -/
structure SecretResourceModel where
  id : Option String
  name : Option String
  driver : Option String
  driverOpts : Option (List (String × String))
  labels : Option (List (String × String))
  secret : Option String
  deriving Repr, DecidableEq

/-- `types.String.ValueString()`: the held string, or `""` when null. -/
def valueString (s : Option String) : String := s.getD ""

/-- Driver part of a remote secret record (`secret[0].Spec.Driver`). -/
structure SecretDriverSpec where
  name : String
  options : List (String × String)
  deriving Repr, DecidableEq

/-- Spec part of a remote secret record (`secret[0].Spec`). -/
structure SecretSpec where
  name : String
  driver : SecretDriverSpec
  labels : List (String × String)
  deriving Repr, DecidableEq

/-- A record returned by `secrets.List`: spec plus the (possibly empty)
secret content `SecretData`. -/
structure SecretInfoReport where
  spec : SecretSpec
  secretData : String
  deriving Repr, DecidableEq

/-- Response of `secrets.Create` (`createResp.ID`). -/
structure SecretCreateResponse where
  id : String
  deriving Repr, DecidableEq

/-- Oracle for the behaviour of the remote podman client during one
lifecycle operation: the result each bindings call would return,
errors as their message strings. -/
structure RemoteClient where
  createResult : Except String SecretCreateResponse
  listResult : Except String (List SecretInfoReport)
  removeResult : Except String Unit
  deriving Repr

/-- A remote call issued through the podman bindings, recorded with its
arguments. -/
inductive RemoteCall where
  | create (payload : String) (name driver : Option String)
      (driverOpts labels : List (String × String))
  | list (filters : List (String × List String))
  | remove (id : String)
  deriving Repr, DecidableEq

/-- A tflog line emitted by an operation. -/
inductive LogEntry where
  | error (msg : String)
  deriving Repr, DecidableEq

/-- A Terraform diagnostic (summary, detail) added via `AddError`. -/
structure Diagnostic where
  summary : String
  detail : String
  deriving Repr, DecidableEq

/-- Outcome of `SecretResource.Create`. -/
inductive CreateOutcome where
  | ok (state : SecretResourceModel)
  | err (summary detail : String)
  deriving Repr, DecidableEq

/-- Outcome of `SecretResource.Read`: `absent` embeds the
`resp.State.RemoveResource` path taken when the lookup matches nothing. -/
inductive ReadOutcome where
  | ok (state : SecretResourceModel)
  | absent
  | err (summary detail : String)
  deriving Repr, DecidableEq

/-- Whether a read outcome is the error case. -/
def ReadOutcome.isErr : ReadOutcome → Bool
  | .err _ _ => true
  | _ => false

/-- Outcome of `SecretResource.Delete`. -/
inductive DeleteOutcome where
  | ok
  | err (summary detail : String)
  deriving Repr, DecidableEq

/-- Go `fmt` `%q` escaping of one character (the printable-ASCII and
common-escape cases used by the embedded log line). -/
def goQuoteChar (c : Char) : String :=
  if c = '"' then "\\\""
  else if c = '\\' then "\\\\"
  else if c = '\n' then "\\n"
  else if c = '\t' then "\\t"
  else String.singleton c

/-- Go `fmt.Sprintf` with verb `%q`: the string wrapped in double quotes
with its characters escaped. -/
def goQuote (s : String) : String :=
  "\"" ++ String.join (s.data.map goQuoteChar) ++ "\""

/-- `types.Map.ElementsAs(ctx, &target, false)`: framework conversion of
a Terraform map value into a Go `map[string]string`. With
`allowUnhandled = false` a null collection is not handled and produces a
conversion-error diagnostic (detail abbreviated to its operative
phrase); a present map converts to its entries. -/
def elementsAs (v : Option (List (String × String))) :
    Except Diagnostic (List (String × String)) :=
  match v with
  | none => .error { summary := "Value Conversion Error",
                     detail := "unhandled null value" }
  | some entries => .ok entries

/-- `SecretResource.Create`: first converts the plan's `driver_opts` and
`labels` maps via `ElementsAs(ctx, ..., false)`, returning the
conversion diagnostic — and issuing no remote call — when either map is
null; then forwards the plan's payload, name, driver, driver options
and labels to `secrets.Create`; on client error adds the diagnostic
`failed to add secret` with the underlying message; on success stores
the response id into the state and backfills `driver` with `"file"`
when the plan left it null. Returns the outcome and the trace of remote
calls. -/
def SecretResource.create (client : RemoteClient) (plan : SecretResourceModel) :
    CreateOutcome × List RemoteCall :=
  match elementsAs plan.driverOpts with
  | .error diag => (.err diag.summary diag.detail, [])
  | .ok driverOpts =>
  match elementsAs plan.labels with
  | .error diag => (.err diag.summary diag.detail, [])
  | .ok labels =>
  let call := RemoteCall.create (valueString plan.secret) plan.name plan.driver
    driverOpts labels
  match client.createResult with
  | .error e => (.err "failed to add secret" e, [call])
  | .ok resp =>
      let d1 := { plan with id := some resp.id }
      let d2 := if d1.driver.isNone then { d1 with driver := some "file" } else d1
      (.ok d2, [call])

/-- `SecretResource.Read`: calls `secrets.List` filtering on the single
field `id` with the prior state's id; on error adds `failed to get
secret`; on zero matches removes the resource from state (`absent`);
otherwise maps the first record's name, driver name, driver options,
labels and secret content into the state and emits the
`tflog.Error` line `secretdata: %q` with the record's secret content.
Returns the outcome, the remote-call trace and the log lines. -/
def SecretResource.read (client : RemoteClient) (prior : SecretResourceModel) :
    ReadOutcome × List RemoteCall × List LogEntry :=
  let call := RemoteCall.list [("id", [valueString prior.id])]
  match client.listResult with
  | .error e => (.err "failed to get secret" e, [call], [])
  | .ok [] => (.absent, [call], [])
  | .ok (s :: _) =>
      let data := { prior with
        name := some s.spec.name
        driver := some s.spec.driver.name
        driverOpts := some s.spec.driver.options
        labels := some s.spec.labels
        secret := some s.secretData }
      (.ok data, [call], [.error ("secretdata: " ++ goQuote s.secretData)])

/-- `SecretResource.Update`: reads the plan and writes it back to state
unchanged; no bindings call is made (the commented-out client call in
the Go source is dead). Returns the new state and the (empty)
remote-call trace. -/
def SecretResource.update (client : RemoteClient) (plan : SecretResourceModel) :
    SecretResourceModel × List RemoteCall :=
  (plan, [])

/-- `SecretResource.Delete`: calls `secrets.Remove` with the prior
state's id; any error is surfaced as the diagnostic `failed to delete
secret` with the underlying message. -/
def SecretResource.delete (client : RemoteClient) (prior : SecretResourceModel) :
    DeleteOutcome × List RemoteCall :=
  let call := RemoteCall.remove (valueString prior.id)
  match client.removeResult with
  | .error e => (.err "failed to delete secret" e, [call])
  | .ok _ => (.ok, [call])

/-- Host-runtime persistence around Create: the framework keeps the
state the response carries; when the operation returned before
`resp.State.Set`, the persisted state is unchanged. -/
def persistCreate (prior : Option SecretResourceModel) :
    CreateOutcome → Option SecretResourceModel
  | .ok s => some s
  | .err _ _ => prior

/-- Host-runtime persistence around Read: `ok` stores the refreshed
state, `absent` clears it (`RemoveResource`), an error leaves the
prior state untouched. -/
def persistRead (prior : Option SecretResourceModel) :
    ReadOutcome → Option SecretResourceModel
  | .ok s => some s
  | .absent => none
  | .err _ _ => prior

/-- Host-runtime persistence around Delete: success removes the state,
an error leaves the prior state untouched. -/
def persistDelete (prior : Option SecretResourceModel) :
    DeleteOutcome → Option SecretResourceModel
  | .ok => none
  | .err _ _ => prior

/-- A live podman connection handle, as produced by
`bindings.NewConnection`; carries the endpoint it was opened on. -/
structure Conn where
  endpoint : String
  deriving Repr, DecidableEq

/-- Embeds the Go struct `PodmanProviderModel` of provider.go. -/
structure PodmanProviderModel where
  endpoint : Option String
  deriving Repr, DecidableEq

/-- Outcome of `PodmanProvider.Configure`. -/
inductive ConfigureOutcome where
  | ok (conn : Conn)
  | err (summary detail : String)
  deriving Repr, DecidableEq

/-- `PodmanProvider.Configure` (provider.go): when the config leaves
`endpoint` null, looks up `XDG_RUNTIME_DIR`; if unset, fails with
`default endpoint cannot be used`; otherwise the endpoint is
`unix:<dir>/podman/podman.sock`. Then attempts `bindings.NewConnection`
on the chosen endpoint. Besides the outcome it returns the list of
endpoints a connection was attempted on. -/
def PodmanProvider.configure (xdgRuntimeDir : Option String)
    (newConnection : String → Except String Conn)
    (data : PodmanProviderModel) : ConfigureOutcome × List String :=
  let tryEndpoint := fun (endpoint : String) =>
    match newConnection endpoint with
    | .error e => (ConfigureOutcome.err "failed to connect to podman socket" e, [endpoint])
    | .ok conn => (ConfigureOutcome.ok conn, [endpoint])
  match data.endpoint with
  | none =>
      match xdgRuntimeDir with
      | none =>
          (.err "default endpoint cannot be used" "XDG_RUNTIME_DIR env var isn't set", [])
      | some dir => tryEndpoint ("unix:" ++ dir ++ "/podman/podman.sock")
  | some e => tryEndpoint e

/-- The untyped `req.ProviderData` handed to `SecretResource.Configure`:
either the connection handle or a value of some other dynamic type,
carried with its Go type name (what `%T` would print). -/
inductive ProviderData where
  | conn (c : Conn)
  | other (typeName : String)
  deriving Repr, DecidableEq

/-- `SecretResource.Configure`: returns immediately when the provider
data is nil; stores the connection when the type assertion succeeds;
otherwise adds the `Unexpected Resource Configure Type` diagnostic and
leaves the stored handle unchanged. Returns the stored handle after
the call together with the diagnostics added. -/
def SecretResource.configure (stored : Option Conn)
    (providerData : Option ProviderData) : Option Conn × List Diagnostic :=
  match providerData with
  | none => (stored, [])
  | some (.conn c) => (some c, [])
  | some (.other t) =>
      (stored,
        [{ summary := "Unexpected Resource Configure Type",
           detail := "Expected *http.Client, got: " ++ t ++
             ". Please report this issue to the provider developers." }])

/-- Whether `needle` is a prefix of `hay` (character lists). -/
def charsHasPref : List Char → List Char → Bool
  | [], _ => true
  | _ :: _, [] => false
  | a :: as, b :: bs => a = b && charsHasPref as bs

/-- Whether `needle` occurs contiguously inside `hay` (character lists). -/
def charsContains : List Char → List Char → Bool
  | needle, [] => charsHasPref needle []
  | needle, c :: rest => charsHasPref needle (c :: rest) || charsContains needle rest

/-- Whether `needle` occurs as a contiguous substring of `hay`. -/
def strContains (hay needle : String) : Bool := charsContains needle.data hay.data

/-- Remote-client fixture for the duplicate-id scenario: the list call
returns two records for the single filtered id. -/
def twoMatchClient : RemoteClient :=
  { createResult := .error "unused",
    listResult := .ok
      [{ spec :=
           { name := "first",
             driver := { name := "file", options := [] },
             labels := [] },
         secretData := "s1" },
       { spec :=
           { name := "second",
             driver := { name := "file", options := [] },
             labels := [] },
         secretData := "s2" }],
    removeResult := .ok () }

/-- Prior-state fixture with id `abc123` and a previously known secret. -/
def priorAbc : SecretResourceModel :=
  { id := some "abc123", name := some "foo", driver := some "file",
    driverOpts := some [], labels := some [], secret := some "hunter2" }

/-- C1 (code defect): Read against a single matching record whose secret
content is empty overwrites the previously held secret value `hunter2`
with the empty content instead of preserving it. -/
theorem c1_read_overwrites_prior_secret_with_empty :
    (SecretResource.read
      { createResult := .error "unused",
        listResult := .ok
          [{ spec :=
               { name := "foo",
                 driver := { name := "file", options := [] },
                 labels := [] },
             secretData := "" }],
        removeResult := .ok () } priorAbc).1 =
      ReadOutcome.ok
        { id := some "abc123", name := some "foo", driver := some "file",
          driverOpts := some [], labels := some [], secret := some "" } ∧
    priorAbc.secret = some "hunter2" := by
  exact ⟨rfl, rfl⟩

/-- C2 (code defect): Delete surfaces a not-found failure of the remote
remove call as the error diagnostic `failed to delete secret` instead of
treating the already-absent object as success. -/
theorem c2_delete_surfaces_not_found_error :
    (SecretResource.delete
      { createResult := .error "unused", listResult := .ok [],
        removeResult := .error
          "no secret with name or id matching \"abc123\": no such secret" }
      priorAbc).1 =
    DeleteOutcome.err "failed to delete secret"
      "no secret with name or id matching \"abc123\": no such secret" := by
  exact rfl

/-- C3 (code defect): Read emits a tflog error line that contains the
secret payload `hunter2` returned by the remote record, so the secret
does appear in log output. -/
theorem c3_read_logs_secret_content :
    (SecretResource.read
      { createResult := .error "unused",
        listResult := .ok
          [{ spec :=
               { name := "foo",
                 driver := { name := "file", options := [] },
                 labels := [] },
             secretData := "hunter2" }],
        removeResult := .ok () } priorAbc).2.2 =
      [LogEntry.error "secretdata: \"hunter2\""] ∧
    strContains "secretdata: \"hunter2\"" "hunter2" = true := by
  exact ⟨rfl, by decide⟩

/-- C4: a Read whose remote lookup returns zero records signals the
Absent outcome — persisted state is cleared — and is never the error
outcome. -/
theorem c4_read_zero_matches_is_absent (cr : Except String SecretCreateResponse)
    (rr : Except String Unit) (prior : SecretResourceModel) :
    (SecretResource.read ⟨cr, .ok [], rr⟩ prior).1 = ReadOutcome.absent ∧
    persistRead (some prior) (SecretResource.read ⟨cr, .ok [], rr⟩ prior).1 = none ∧
    ((SecretResource.read ⟨cr, .ok [], rr⟩ prior).1).isErr = false := by
  exact ⟨rfl, rfl, rfl⟩

/-- C5: every Create that succeeds yields a state whose id is the id of
the remote create response and whose driver is the plan's driver when
the plan set it and the default `"file"` when the plan left it null;
all other planned fields are kept. -/
theorem c5_create_success_sets_id_and_driver (client : RemoteClient)
    (plan st : SecretResourceModel)
    (h : (SecretResource.create client plan).1 = CreateOutcome.ok st) :
    ∃ resp, client.createResult = Except.ok resp ∧
      st = { plan with id := some resp.id,
                       driver := some (plan.driver.getD "file") } := by
  cases hdo : plan.driverOpts with
  | none => simp [SecretResource.create, elementsAs, hdo] at h
  | some dopts =>
  cases hlb : plan.labels with
  | none => simp [SecretResource.create, elementsAs, hdo, hlb] at h
  | some lbls =>
  cases hcr : client.createResult with
  | error e => simp [SecretResource.create, elementsAs, hdo, hlb, hcr] at h
  | ok resp =>
    refine ⟨resp, rfl, ?_⟩
    cases hd : plan.driver with
    | none =>
      simp [SecretResource.create, elementsAs, hdo, hlb, hcr, hd] at h
      rw [← h]
      simp [hd]
    | some d0 =>
      simp [SecretResource.create, elementsAs, hdo, hlb, hcr, hd] at h
      rw [← h]
      simp [hd]

/-- Client fixture for the C5 witness: the create call succeeds with
response id `abc123`. -/
def createOkClient : RemoteClient :=
  { createResult := .ok { id := "abc123" }, listResult := .ok [],
    removeResult := .ok () }

/-- Plan fixture for the C5 witness: driver left null, both maps set. -/
def nullDriverPlan : SecretResourceModel :=
  { id := none, name := some "foo", driver := none, driverOpts := some [],
    labels := some [], secret := some "bar" }

/-- Witness for C5: a concrete successful Create (null driver, set maps,
response id `abc123`) instantiating the theorem. -/
theorem c5_create_success_sets_id_and_driver_witness :
    ∃ resp, createOkClient.createResult = Except.ok resp ∧
      ({ id := some "abc123", name := some "foo", driver := some "file",
         driverOpts := some [], labels := some [],
         secret := some "bar" } : SecretResourceModel) =
      { nullDriverPlan with
          id := some resp.id,
          driver := some (nullDriverPlan.driver.getD "file") } :=
  c5_create_success_sets_id_and_driver createOkClient nullDriverPlan
    { id := some "abc123", name := some "foo", driver := some "file",
      driverOpts := some [], labels := some [], secret := some "bar" }
    rfl

/-- C6: with no explicit endpoint, Configure attempts a connection on
exactly `unix:<XDG_RUNTIME_DIR>/podman/podman.sock` when the variable is
set; when it is unset, Configure fails with the fatal configuration
error and attempts no connection at all. -/
theorem c6_endpoint_resolution (dir : String)
    (nc : String → Except String Conn) :
    (PodmanProvider.configure (some dir) nc { endpoint := none }).2 =
      ["unix:" ++ dir ++ "/podman/podman.sock"] ∧
    PodmanProvider.configure none nc { endpoint := none } =
      (ConfigureOutcome.err "default endpoint cannot be used"
        "XDG_RUNTIME_DIR env var isn't set", []) := by
  constructor
  · cases h : nc ("unix:" ++ dir ++ "/podman/podman.sock") <;>
      simp [PodmanProvider.configure, h]
  · rfl

/-- C7: Update issues no remote call (its call trace is empty, and its
result does not depend on the client), re-applies the planned
configuration as the new state, and leaves the id field untouched. -/
theorem c7_update_no_remote_call (client : RemoteClient)
    (plan : SecretResourceModel) :
    SecretResource.update client plan = (plan, []) ∧
    (SecretResource.update client plan).1.id = plan.id := by
  exact ⟨rfl, rfl⟩

/-- C8: whenever the remote client call fails, the operation reports the
operation-named failure carrying the underlying remote message and the
persisted state is left exactly as it was before the operation. For
Create the remote call is issued exactly for the plans whose map
conversion succeeded (both maps set), so the Create leg is stated over
those plans, with the issued call recorded in the trace; Read and
Delete issue their remote call for every prior state. -/
theorem c8_remote_failure_is_terminal (m : String)
    (prior : SecretResourceModel) (i n d s : Option String)
    (dopts lbls : List (String × String))
    (cr : Except String SecretCreateResponse)
    (lr : Except String (List SecretInfoReport)) (rr : Except String Unit)
    (st : Option SecretResourceModel) :
    ((SecretResource.create ⟨.error m, lr, rr⟩
        ⟨i, n, d, some dopts, some lbls, s⟩).1 =
        CreateOutcome.err "failed to add secret" m ∧
      (SecretResource.create ⟨.error m, lr, rr⟩
        ⟨i, n, d, some dopts, some lbls, s⟩).2 =
        [RemoteCall.create (valueString s) n d dopts lbls] ∧
      persistCreate st (SecretResource.create ⟨.error m, lr, rr⟩
        ⟨i, n, d, some dopts, some lbls, s⟩).1 = st) ∧
    ((SecretResource.read ⟨cr, .error m, rr⟩ prior).1 =
        ReadOutcome.err "failed to get secret" m ∧
      persistRead st (SecretResource.read ⟨cr, .error m, rr⟩ prior).1 = st) ∧
    ((SecretResource.delete ⟨cr, lr, .error m⟩ prior).1 =
        DeleteOutcome.err "failed to delete secret" m ∧
      persistDelete st (SecretResource.delete ⟨cr, lr, .error m⟩ prior).1 = st) := by
  exact ⟨⟨rfl, rfl, rfl⟩, ⟨rfl, rfl⟩, ⟨rfl, rfl⟩⟩

/-- C9 counterexample: when the lookup returns two records for the one
filtered id, Read does not treat this as a fatal inconsistency — it
returns success, silently built from the first record. -/
theorem c9_multiple_matches_not_fatal :
    ((SecretResource.read twoMatchClient priorAbc).1).isErr = false ∧
    (SecretResource.read twoMatchClient priorAbc).1 =
      ReadOutcome.ok
        { id := some "abc123", name := some "first", driver := some "file",
          driverOpts := some [], labels := some [], secret := some "s1" } := by
  exact ⟨rfl, rfl⟩

/-- C9 (amended): the remote lookup filters on exactly one field, the
id, matched exactly; when the lookup returns more than one record for
that id, the operation silently uses the first record and reports no
error. -/
theorem c9_amended_single_field_filter_first_record (client : RemoteClient)
    (prior : SecretResourceModel) (s : SecretInfoReport)
    (rest : List SecretInfoReport) (cr : Except String SecretCreateResponse)
    (rr : Except String Unit) :
    (SecretResource.read client prior).2.1 =
      [RemoteCall.list [("id", [valueString prior.id])]] ∧
    (SecretResource.read ⟨cr, .ok (s :: rest), rr⟩ prior).1 =
      ReadOutcome.ok
        { prior with name := some s.spec.name,
                     driver := some s.spec.driver.name,
                     driverOpts := some s.spec.driver.options,
                     labels := some s.spec.labels,
                     secret := some s.secretData } := by
  constructor
  · cases h : client.listResult with
    | error e => simp [SecretResource.read, h]
    | ok l => cases l <;> simp [SecretResource.read, h]
  · rfl

/-- C10: resource Configure with nil provider data adds no diagnostic
and leaves the stored connection unchanged; with the right dynamic type
it stores the handle and adds no diagnostic; the configure-type error is
added exactly in the wrong-dynamic-type case, which also leaves the
stored connection unchanged. -/
theorem c10_configure_nil_and_wrong_type (stored : Option Conn) (c : Conn)
    (t : String) :
    SecretResource.configure stored none = (stored, []) ∧
    SecretResource.configure stored (some (ProviderData.conn c)) = (some c, []) ∧
    (SecretResource.configure stored (some (ProviderData.other t))).2 =
      [{ summary := "Unexpected Resource Configure Type",
         detail := "Expected *http.Client, got: " ++ t ++
           ". Please report this issue to the provider developers." }] ∧
    (SecretResource.configure stored (some (ProviderData.other t))).1 = stored := by
  exact ⟨rfl, rfl, rfl, rfl⟩

end Podman
